import Mathlib

/-!
Verification of the deepseek-telegram-translation-chatbot repository.

The repository is a Node.js Telegram bot.  Its behavioural kernel — the
authorization gate, the command dispatcher, the settings store
(current mode / current model / model catalog), the request composer of
api.js / apiv2.js and the response relay — is embedded below as pure Lean
functions, translated clause by clause from the JavaScript source
(README.MD contains the two bot.js versions; the claims cite the second,
modular version, which imports utils.js and api.js).

Modelling conventions:
  * JavaScript strings are Lean `String`s; the JS operations
    `startsWith`, `trim`, `includes`/`===` are modelled on the underlying
    character list (`String.data`).
  * The two regular expressions that take arguments or tolerate suffixes
    are modelled by their exact matching conditions: `/^\/start/` is a
    prefix test, and `/^\/set_model (.+)$/` matches exactly when the text
    is "/set_model " followed by a non-empty remainder containing no
    JavaScript line terminator (JS `.` does not match line terminators and
    `$` without the m flag anchors at the very end of the input).
  * `JSON.parse` of a body and the HTTP layer are external collaborators:
    a transport outcome carries the status and the parsed JSON value
    (`none` when the body is not valid JSON), or a thrown fetch error.
  * The node-telegram-bot-api library emits the general 'message' event
    for every message and additionally invokes every matching `onText`
    handler; `handleMessage` below reproduces exactly that fan-out.
-/

namespace Chatbot

/-- JS `String.prototype.startsWith`, on the character lists. -/
def jsStartsWith (p t : String) : Bool :=
  p.data.isPrefixOf t.data

/-- JS `String.prototype.trim`: drop leading and trailing whitespace. -/
def jsTrim (s : String) : String :=
  String.mk (((s.data.dropWhile Char.isWhitespace).reverse.dropWhile
      Char.isWhitespace).reverse)

/-- The string `sub` occurs contiguously inside `s` (JS `includes`). -/
def jsContains (s sub : String) : Prop :=
  sub.data <:+: s.data

/-- JavaScript line terminators, the characters not matched by `.` in a
regular expression without the s flag. -/
def jsLineTerminator (c : Char) : Bool :=
  c = '\n' || c = '\r' || c = '\u2028' || c = '\u2029'

/-- JS `a || b` for an optional string `a` (absent or empty is falsy). -/
def jsOrStr : Option String → String → String
  | some s, d => if s = "" then d else s
  | none, d => d

/-- A JSON value, the result of `JSON.parse`. -/
inductive Json where
  | null
  | bool (b : Bool)
  | num (n : Int)
  | str (s : String)
  | arr (elems : List Json)
  | obj (fields : List (String × Json))

/-- Property access `j[k]` on a parsed JSON value: a field of an object,
`undefined` (here `none`) otherwise. -/
def Json.getField : Json → String → Option Json
  | .obj fields, k => (fields.find? (fun f => f.1 == k)).map Prod.snd
  | _, _ => none

/-- JS truthiness of a JSON value. -/
def Json.truthy : Json → Bool
  | .null => false
  | .bool b => b
  | .num n => n != 0
  | .str s => s != ""
  | .arr _ => true
  | .obj _ => true

/-- String coercion of a JSON value as used in a JS template literal.
Only the string case is exercised by the source; the array rendering is a
coarse approximation of the JS join. -/
def Json.display : Json → String
  | .null => "null"
  | .bool b => if b then "true" else "false"
  | .num n => toString n
  | .str s => s
  | .arr _ => ""
  | .obj _ => "[object Object]"

/-- One typed block of structured message content (apiv2.js only builds
text blocks; the image variant is commented out in the source). -/
inductive ContentBlock where
  | text (t : String)
deriving DecidableEq

/-- Message content: a flat string, or an array of typed blocks. -/
inductive Content where
  | flat (s : String)
  | blocks (parts : List ContentBlock)
deriving DecidableEq

/-- One chat message of the outgoing request body. -/
structure ChatMessage where
  role : String
  content : Content
deriving DecidableEq

/-- The JSON body of the outgoing HTTP POST. -/
structure ApiRequest where
  model : String
  messages : List ChatMessage
deriving DecidableEq

/-- System prompt of the prompt-translation mode (api.js / apiv2.js). -/
def promptSystem : String :=
  "You are an AI assistant specialized in refining text for AI prompts. Translate the user\x27s input into clear, concise, and unambiguous English suitable for prompting another AI. Respond *only* with the translated text and absolutely nothing else. Do not add any introductory phrases, explanations, or conversational filler."

/-- System prompt of the commit-translation mode (api.js / apiv2.js). -/
def commitSystem : String :=
  "You are an AI assistant specialized in formatting text into git commit messages. Translate the user\x27s input into a clear and concise English git commit message following conventional standards (e.g., \x27feat: add user authentication\x27). Respond *only* in the format `git commit -m \"COMMIT_CONTENT\"`. If you can think of 1 or 2 significantly better alternative phrasings for the commit message, provide them on new lines, each prefixed with \x27Alternative:\x27. Do not add any other introductory text, explanations, or conversation."

/-- System prompt of the chat mode (api.js / apiv2.js). -/
def chatSystem : String :=
  "You are a helpful AI assistant. Respond conversationally and helpfully to the user\x27s message. Always respond in User\x27s language. If the user uses Chinese, respond in Traditional Chinese."

/-- Payload prefix of the prompt-translation mode. -/
def promptPre : String :=
  "Translate the following prompt into English\n--- --- ---\n"

/-- Payload prefix of the commit-translation mode. -/
def commitPre : String :=
  "Translate the following commit message into English\n--- --- ---\n"

/-- The mode dispatch of api.js / apiv2.js: system prompt and payload
prefix per recognized mode, `none` for the invalid-mode branch. -/
def modeConfig (mode : String) : Option (String × String) :=
  if mode == "prompt" then some (promptSystem, promptPre)
  else if mode == "commit" then some (commitSystem, commitPre)
  else if mode == "chat" then some (chatSystem, "")
  else none

/-- apiv2.js `buildStandardMessages`: flat string contents; the system
message is pushed only when the system prompt is truthy. -/
def buildStandardMessages (systemPrompt userPrompt modPre : String) :
    List ChatMessage :=
  (if systemPrompt ≠ "" then [⟨"system", .flat systemPrompt⟩] else []) ++
    [⟨"user", .flat (modPre ++ userPrompt)⟩]

/-- apiv2.js `buildGoogleMessages`: contents are arrays of typed blocks,
each holding a single text block. -/
def buildGoogleMessages (systemPrompt userPrompt modPre : String) :
    List ChatMessage :=
  (if systemPrompt ≠ "" then [⟨"system", .blocks [.text systemPrompt]⟩]
   else []) ++
    [⟨"user", .blocks [.text (modPre ++ userPrompt)]⟩]

/-- The request-composition stage of apiv2.js `callOpenRouterAPI`: trim,
empty-input short-circuit, mode dispatch, then the content-shape choice by
the `google/` model-id prefix.  An `error` result is returned to the user
without any HTTP request being issued. -/
def composeOpenRouterRequest (inputText mode currentModelId : String) :
    Except String ApiRequest :=
  if jsTrim inputText = "" then .error "Input cannot be empty."
  else
    match modeConfig mode with
    | none => .error "Internal error: Invalid processing mode."
    | some (systemPrompt, modPre) =>
      if jsStartsWith "google/" currentModelId then
        .ok ⟨currentModelId,
          buildGoogleMessages systemPrompt (jsTrim inputText) modPre⟩
      else
        .ok ⟨currentModelId,
          buildStandardMessages systemPrompt (jsTrim inputText) modPre⟩

/-- The request-composition stage of api.js `callDeepSeekAPI`: same trim,
empty-input short-circuit and mode dispatch; the messages array is always
the flat-string pair, with the system message pushed unconditionally. -/
def composeDeepSeekRequest (inputText mode currentModelId : String) :
    Except String ApiRequest :=
  if jsTrim inputText = "" then .error "Input cannot be empty."
  else
    match modeConfig mode with
    | none => .error "Internal error: Invalid processing mode."
    | some (systemPrompt, modPre) =>
      .ok ⟨currentModelId,
        [⟨"system", .flat systemPrompt⟩,
         ⟨"user", .flat (modPre ++ jsTrim inputText)⟩]⟩

/-- The `errorJson.error && errorJson.error.message` lookup of the non-ok
branch: the nested message, rendered, when the parsed body has a truthy
`error` field with a truthy `message` field. -/
def jsonNestedErrorMessage (parsedBody : Option Json) : Option String :=
  match parsedBody with
  | none => none
  | some j =>
    match j.getField "error" with
    | none => none
    | some e =>
      if e.truthy then
        match e.getField "message" with
        | none => none
        | some m => if m.truthy then some m.display else none
      else none

/-- The non-ok response mapping of api.js / apiv2.js: a user-facing error
string carrying the status code, with the nested JSON error message
appended when present.  `parsedBody` is the result of `JSON.parse` on the
error body text (`none` when it is not valid JSON). -/
def apiErrorReply (status : Nat) (parsedBody : Option Json) : String :=
  "Sorry, I encountered an API error (" ++ toString status ++ ")." ++
    (match jsonNestedErrorMessage parsedBody with
     | some m => " Details: " ++ m
     | none => "")

/-- The success-path response handling of api.js / apiv2.js: the first
choice's string message content, trimmed, with an empty-after-trim result
replaced by a fixed placeholder; any other shape yields the generic
unexpected-response error. -/
def apiSuccessReply (data : Json) : String :=
  match data.getField "choices" with
  | some (.arr (c :: _)) =>
    match c.getField "message" with
    | some mo =>
      if mo.truthy then
        match mo.getField "content" with
        | some (.str content) =>
          if jsTrim content = "" then "[Received empty response from AI]"
          else jsTrim content
        | _ => "Sorry, I received an unexpected or empty response from the AI."
      else "Sorry, I received an unexpected or empty response from the AI."
    | none => "Sorry, I received an unexpected or empty response from the AI."
  | _ => "Sorry, I received an unexpected or empty response from the AI."

/-- Outcome of the `fetch` call: a completed HTTP response whose body
parses (or not) as JSON, or a thrown error. -/
inductive TransportOutcome where
  | httpResponse (status : Nat) (parsedBody : Option Json)
  | abortError
  | fetchError (message : String)

/-- `response.ok`: status in the 2xx range. -/
def okStatus (status : Nat) : Bool :=
  200 ≤ status && status < 300

/-- Response/error mapping of api.js / apiv2.js after the request was
issued.  A 2xx response whose body is not valid JSON makes `response.json()`
reject, which flows into the same catch clause as fetch errors; the detail
text of that message is supplied by the runtime. -/
def handleTransport : TransportOutcome → String
  | .abortError => "Sorry, the request to the AI timed out."
  | .fetchError m =>
    "Sorry, I encountered a network or processing error while contacting the AI. Details: " ++ m
  | .httpResponse status parsedBody =>
    if okStatus status then
      match parsedBody with
      | some data => apiSuccessReply data
      | none =>
        "Sorry, I encountered a network or processing error while contacting the AI. Details: Unexpected end of JSON input"
    else apiErrorReply status parsedBody

/-- apiv2.js `callOpenRouterAPI` as a function of the input and of the
transport outcome of the single request (when one is issued). -/
def callOpenRouterAPI (inputText mode currentModelId : String)
    (t : TransportOutcome) : String :=
  match composeOpenRouterRequest inputText mode currentModelId with
  | .error e => e
  | .ok _ => handleTransport t

/-- api.js `callDeepSeekAPI` as a function of the input and of the
transport outcome of the single request (when one is issued). -/
def callDeepSeekAPI (inputText mode currentModelId : String)
    (t : TransportOutcome) : String :=
  match composeDeepSeekRequest inputText mode currentModelId with
  | .error e => e
  | .ok _ => handleTransport t

/-- The edit text used when the AI response is absent or blank. -/
def noResponseText : String :=
  "Sorry, an error occurred and no response was generated."

/-- The fallback send text used when the AI response is absent or blank. -/
def processingErrorText : String :=
  "Sorry, an error occurred processing your request."

/-- utils.js `sendMessage`: the helper refuses to send empty or
whitespace-only text; otherwise the text is sent as one message. -/
def sendEffect (text : String) : List String :=
  if jsTrim text = "" then [] else [text]

/-- Observable sends of the relay tail of the general message handler. -/
structure RelayEffects where
  editAttempt : Option String
  newMessages : List String
deriving DecidableEq

/-- The relay tail of the v2 general message handler: when the
acknowledgment was sent, edit it to the response (blank replaced by the
fixed no-response string) and, if the edit fails, fall back to a fresh
send through the `sendMessage` helper; when no acknowledgment exists, send
a fresh message directly. -/
def relayResponse (aiResponse : Option String) (ackSent : Bool)
    (editFails : Bool) : RelayEffects :=
  if ackSent then
    { editAttempt := some (jsOrStr aiResponse noResponseText),
      newMessages :=
        if editFails then sendEffect (jsOrStr aiResponse processingErrorText)
        else [] }
  else
    { editAttempt := none,
      newMessages := sendEffect (jsOrStr aiResponse processingErrorText) }

/-- One entry of models.json; absent name/notes are the empty string
(falsy, as in JS). -/
structure ModelEntry where
  id : String
  name : String
  notes : String
deriving DecidableEq

/-- The mutable settings of the v2 bot: current mode, current model id and
the model catalog loaded at startup. -/
structure BotState where
  currentMode : String
  currentModelId : String
  availableModels : List ModelEntry
deriving DecidableEq

/-- The ids of the catalog entries. -/
def catalogIds (s : BotState) : List String :=
  s.availableModels.map ModelEntry.id

/-- Outcome of reading models.json: missing file, unparsable file, or a
parsed list of entries. -/
inductive ModelsLoad where
  | absent
  | parseFailure
  | loaded (models : List ModelEntry)

/-- The single-entry catalog synthesized from the configured default model
id when models.json is missing or malformed. -/
def defaultCatalog (defaultModelId : String) : List ModelEntry :=
  [⟨defaultModelId, defaultModelId ++ " (Default from .env)", ""⟩]

/-- Startup initialization of the v2 bot state (README.MD, models.json
load): mode starts as prompt; the model id starts as the configured
default, demoted to the catalog's first entry when the default is not in a
successfully loaded catalog; an empty loaded catalog without the default is
a fatal configuration error (`none`, the process exits). -/
def initState (defaultModelId : String) (load : ModelsLoad) : Option BotState :=
  match load with
  | .absent => some ⟨"prompt", defaultModelId, defaultCatalog defaultModelId⟩
  | .parseFailure => some ⟨"prompt", defaultModelId, defaultCatalog defaultModelId⟩
  | .loaded models =>
    if models.any (fun m => m.id == defaultModelId) then
      some ⟨"prompt", defaultModelId, models⟩
    else
      match models with
      | [] => none
      | first :: _ => some ⟨"prompt", first.id, models⟩

/-- An incoming Telegram message at the inbound boundary. -/
structure IncomingMessage where
  fromId : Int
  chatId : Int
  text : Option String
deriving DecidableEq

/-- utils.js `isAuthorized`: identity comparison against the configured
authorized user id (startup validation guarantees the configured id is a
valid number). -/
def isAuthorized (userId authorizedUserId : Int) : Bool :=
  userId == authorizedUserId

/-- One invocation of the remote call adapter recorded by the dispatcher. -/
structure ApiCall where
  text : String
  mode : String
  modelId : String
deriving DecidableEq

/-- Result of dispatching one incoming message: the new settings state,
all texts sent to the chat, and all remote call adapter invocations. -/
structure StepResult where
  state : BotState
  replies : List String
  apiCalls : List ApiCall
deriving DecidableEq

/-- The exact-command list of step 3 of the v2 general message handler. -/
def exactCommands : List String :=
  ["/start", "/help", "/prompt_mode", "/commit_mode", "/chat_mode", "/list_models"]

/-- Matching of `/^\/set_model (.+)$/`: the text is "/set_model " followed
by a non-empty remainder free of line terminators; the remainder is the
captured group. -/
def setModelArg (t : String) : Option String :=
  if jsStartsWith "/set_model " t then
    if !(t.data.drop 11).isEmpty &&
        (t.data.drop 11).all (fun c => !jsLineTerminator c) then
      some (String.mk (t.data.drop 11))
    else none
  else none

/-- The /help reply of the v2 bot. -/
def helpText (s : BotState) : String :=
  "Available Commands:\n/help - Show this help message.\n/prompt_mode - Switch to Prompt Translation Mode.\n/commit_mode - Switch to Commit Translation Mode.\n/chat_mode - Switch to General Chat Mode.\n/list_models - Show available AI models and the current one.\n/set_model <model_id> - Switch the AI model to use.\n\nCurrent Mode: " ++
    s.currentMode ++ "\nCurrent Model: " ++ s.currentModelId ++
    "\n\nSend any text message to process it with the current mode and model."

/-- One line of the /list_models reply. -/
def modelLine (currentModelId : String) (m : ModelEntry) : String :=
  "- " ++ (if m.name ≠ "" then m.name else m.id) ++
    (if m.id == currentModelId then " (Current)" else "") ++
    "\n  ID: " ++ m.id ++ "\n" ++
    (if m.notes ≠ "" then "  Notes: " ++ m.notes ++ "\n" else "")

/-- The /list_models reply of the v2 bot. -/
def modelListText (s : BotState) : String :=
  (if s.availableModels.isEmpty then
    "No models loaded. Please check models.json or the .env configuration."
   else
    "Available Models:\n" ++
      String.join (s.availableModels.map (modelLine s.currentModelId))) ++
    "\nCurrent Model ID: " ++ s.currentModelId

/-- Handler of `/^\/start/`: the authorized reply goes through the
`sendMessage` helper, the denial notice is sent directly. -/
def runStart (auth : Int) (s : BotState) (userId : Int) (t : String) :
    BotState × List String :=
  if jsStartsWith "/start" t then
    if isAuthorized userId auth then
      (s, sendEffect "You are authorized.")
    else
      (s, ["User ID " ++ toString userId ++ " is not authorized to use this bot."])
  else (s, [])

/-- Handler of `/^\/help$/`: silent for unauthorized senders. -/
def runHelp (auth : Int) (s : BotState) (userId : Int) (t : String) :
    BotState × List String :=
  if t == "/help" then
    if isAuthorized userId auth then (s, sendEffect (helpText s)) else (s, [])
  else (s, [])

/-- Handler of `/^\/prompt_mode$/`. -/
def runPromptMode (auth : Int) (s : BotState) (userId : Int) (t : String) :
    BotState × List String :=
  if t == "/prompt_mode" then
    if isAuthorized userId auth then
      ({ s with currentMode := "prompt" },
        sendEffect "Switched to Prompt Translation Mode.")
    else (s, [])
  else (s, [])

/-- Handler of `/^\/commit_mode$/`. -/
def runCommitMode (auth : Int) (s : BotState) (userId : Int) (t : String) :
    BotState × List String :=
  if t == "/commit_mode" then
    if isAuthorized userId auth then
      ({ s with currentMode := "commit" },
        sendEffect "Switched to Commit Translation Mode.")
    else (s, [])
  else (s, [])

/-- Handler of `/^\/chat_mode$/`. -/
def runChatMode (auth : Int) (s : BotState) (userId : Int) (t : String) :
    BotState × List String :=
  if t == "/chat_mode" then
    if isAuthorized userId auth then
      ({ s with currentMode := "chat" },
        sendEffect "Switched to General Chat Mode.")
    else (s, [])
  else (s, [])

/-- Handler of `/^\/list_models$/`. -/
def runListModels (auth : Int) (s : BotState) (userId : Int) (t : String) :
    BotState × List String :=
  if t == "/list_models" then
    if isAuthorized userId auth then (s, sendEffect (modelListText s))
    else (s, [])
  else (s, [])

/-- Handler of `/^\/set_model (.+)$/`: exact-id lookup of the trimmed
argument; on a hit the current model id is updated, on a miss the state is
unchanged and the not-found reply is sent. -/
def runSetModel (auth : Int) (s : BotState) (userId : Int) (t : String) :
    BotState × List String :=
  match setModelArg t with
  | none => (s, [])
  | some rest =>
    if isAuthorized userId auth then
      let requested := jsTrim rest
      match s.availableModels.find? (fun m => m.id == requested) with
      | some found =>
        ({ s with currentModelId := found.id },
          sendEffect ("Switched model to: " ++ found.id))
      | none =>
        (s, sendEffect ("Error: Model ID \"" ++ requested ++
          "\" not found. Use /list_models to see available models."))
    else (s, [])

/-- The v2 general message handler: authorization, the non-text drop, the
exact-command / "/set_model " short-circuit, then the acknowledgment send
and the remote call adapter invocation snapshotting the current mode and
model. -/
def messageHandlerStep (auth : Int) (s : BotState) (m : IncomingMessage) :
    List String × List ApiCall :=
  if isAuthorized m.fromId auth then
    match m.text with
    | none => ([], [])
    | some t =>
      if exactCommands.contains t || jsStartsWith "/set_model " t then ([], [])
      else
        (["Processing in " ++ s.currentMode ++ " mode with " ++
            s.currentModelId ++ "..."],
          [⟨t, s.currentMode, s.currentModelId⟩])
  else ([], [])

/-- Dispatch of one incoming message, reproducing the library's fan-out:
the general 'message' event fires for every message, and every matching
`onText` handler also fires; the handlers are threaded in registration
order.  A non-text message triggers no `onText` handler and the general
handler drops it after the authorization check.  The relative order of the
collected sends carries no significance (the handlers run as independent
asynchronous tasks). -/
def handleMessage (auth : Int) (s : BotState) (m : IncomingMessage) :
    StepResult :=
  match m.text with
  | none => ⟨s, [], []⟩
  | some t =>
    let mh := messageHandlerStep auth s m
    let r1 := runStart auth s m.fromId t
    let r2 := runHelp auth r1.1 m.fromId t
    let r3 := runPromptMode auth r2.1 m.fromId t
    let r4 := runCommitMode auth r3.1 m.fromId t
    let r5 := runChatMode auth r4.1 m.fromId t
    let r6 := runListModels auth r5.1 m.fromId t
    let r7 := runSetModel auth r6.1 m.fromId t
    ⟨r7.1, mh.1 ++ r1.2 ++ r2.2 ++ r3.2 ++ r4.2 ++ r5.2 ++ r6.2 ++ r7.2, mh.2⟩

/-- The states the running bot can be in: a successful initialization, or
any state reached from one by dispatching messages. -/
inductive Reachable (auth : Int) : BotState → Prop where
  | init (defaultModelId : String) (load : ModelsLoad) (s : BotState) :
      initState defaultModelId load = some s → Reachable auth s
  | step (s : BotState) (m : IncomingMessage) :
      Reachable auth s → Reachable auth (handleMessage auth s m).state

/-- The spec's no-argument command tokens other than /start (which
tolerates trailing content). -/
def noArgCommandTokens : List String :=
  ["/help", "/prompt_mode", "/commit_mode", "/chat_mode", "/list_models"]

/-- A concrete model catalog used for witnesses. -/
def sampleCatalog : List ModelEntry :=
  [⟨"m1", "Model One", ""⟩, ⟨"google/g1", "Gemini Sample", "blocks"⟩]

/-- A concrete bot state used for witnesses, reachable by initializing
with default id "m1" over `sampleCatalog`. -/
def sampleState : BotState :=
  ⟨"prompt", "m1", sampleCatalog⟩

/-- The parsed JSON value of the error body used in the HTTP 429 witness. -/
def body429 : Option Json :=
  some (.obj [("error", .obj [("message", .str "rate limited")])])

/-- Appending a non-empty string changes a string. -/
theorem append_ne_self (p s : String) (h : s ≠ "") : p ++ s ≠ p := by
  intro heq
  apply h
  have hd := congrArg String.data heq
  rw [String.data_append] at hd
  exact String.ext (by simpa using hd)

/-- Boolean form of `append_ne_self`. -/
theorem beq_append_self (p s : String) (h : s ≠ "") : (p ++ s == p) = false := by
  rw [beq_eq_false_iff_ne]
  exact append_ne_self p s h

/-- The trim of a string is empty exactly when every character of the
string is whitespace. -/
theorem jsTrim_eq_empty_iff (s : String) :
    jsTrim s = "" ↔ ∀ c ∈ s.data, c.isWhitespace = true := by
  unfold jsTrim
  rw [String.ext_iff]
  show ((s.data.dropWhile Char.isWhitespace).reverse.dropWhile
      Char.isWhitespace).reverse = [] ↔ _
  rw [List.reverse_eq_nil_iff, List.dropWhile_eq_nil_iff]
  constructor
  · intro hd c hc
    have hsplit := List.takeWhile_append_dropWhile
      (p := Char.isWhitespace) (l := s.data)
    rw [← hsplit] at hc
    rcases List.mem_append.mp hc with h1 | h2
    · exact List.mem_takeWhile_imp h1
    · exact hd c (List.mem_reverse.mpr h2)
  · intro h c hc
    exact h c ((List.dropWhile_sublist _).subset (List.mem_reverse.mp hc))

/-- Appending cannot turn a string whose trim is nonblank into one whose
trim is blank. -/
theorem jsTrim_append_ne_empty (a b : String) (h : jsTrim a ≠ "") :
    jsTrim (a ++ b) ≠ "" := by
  rw [Ne, jsTrim_eq_empty_iff] at h ⊢
  intro hall
  exact h fun c hc =>
    hall c (by rw [String.data_append]; exact List.mem_append_left _ hc)

/-- A string whose trim is nonblank is itself nonempty. -/
theorem ne_empty_of_jsTrim_ne (s : String) (h : jsTrim s ≠ "") : s ≠ "" :=
  fun h0 => h (by rw [h0]; rfl)

/-- The head revealed by a dropWhile fails the predicate. -/
theorem dropWhile_eq_cons_head_false {α : Type} {p : α → Bool} {l x : List α}
    {c : α} (h : l.dropWhile p = c :: x) : p c = false := by
  induction l with
  | nil => simp at h
  | cons a as ih =>
    rw [List.dropWhile_cons] at h
    by_cases hpa : p a = true
    · rw [if_pos hpa] at h
      exact ih h
    · rw [if_neg hpa] at h
      injection h with h1 _
      subst h1
      simpa using hpa

/-- A nonblank trim contains a non-whitespace character. -/
theorem jsTrim_has_non_whitespace (s : String) (h : jsTrim s ≠ "") :
    ∃ c ∈ (jsTrim s).data, c.isWhitespace = false := by
  have hgne : ((s.data.dropWhile Char.isWhitespace).reverse.dropWhile
      Char.isWhitespace).reverse ≠ [] :=
    fun hnil => h (@String.ext (jsTrim s) "" hnil)
  have hsuf : (s.data.dropWhile Char.isWhitespace).reverse.dropWhile
      Char.isWhitespace <:+ (s.data.dropWhile Char.isWhitespace).reverse :=
    List.dropWhile_suffix _
  have hpre : ((s.data.dropWhile Char.isWhitespace).reverse.dropWhile
      Char.isWhitespace).reverse <+: s.data.dropWhile Char.isWhitespace := by
    have h2 := (List.reverse_prefix).mpr hsuf
    rwa [List.reverse_reverse] at h2
  obtain ⟨tail, htail⟩ := hpre
  rcases hg : ((s.data.dropWhile Char.isWhitespace).reverse.dropWhile
      Char.isWhitespace).reverse with _ | ⟨c0, rest⟩
  · exact absurd hg hgne
  · rw [hg, List.cons_append] at htail
    refine ⟨c0, ?_, dropWhile_eq_cons_head_false htail.symm⟩
    show c0 ∈ ((s.data.dropWhile Char.isWhitespace).reverse.dropWhile
      Char.isWhitespace).reverse
    rw [hg]
    exact List.mem_cons_self _ _

/-- Trimming is stable on nonblank trims. -/
theorem jsTrim_jsTrim_ne_empty (s : String) (h : jsTrim s ≠ "") :
    jsTrim (jsTrim s) ≠ "" := by
  obtain ⟨c, hc, hcw⟩ := jsTrim_has_non_whitespace s h
  rw [Ne, jsTrim_eq_empty_iff]
  intro hall
  rw [hall c hc] at hcw
  cases hcw

/-- Every string produced by the success-path handler has a nonblank
trim. -/
theorem apiSuccessReply_trim_ne (data : Json) :
    jsTrim (apiSuccessReply data) ≠ "" := by
  unfold apiSuccessReply
  split
  · split
    · split
      · split
        · split
          · decide
          · rename_i hcontent
            exact jsTrim_jsTrim_ne_empty _ hcontent
        · decide
      · decide
    · decide
  · decide

/-- Every string produced by the transport/response mapping has a
nonblank trim. -/
theorem handleTransport_trim_ne (t : TransportOutcome) :
    jsTrim (handleTransport t) ≠ "" := by
  rcases t with ⟨status, parsedBody⟩ | _ | m
  · have hred : handleTransport (.httpResponse status parsedBody) =
        if okStatus status then
          match parsedBody with
          | some data => apiSuccessReply data
          | none =>
            "Sorry, I encountered a network or processing error while contacting the AI. Details: Unexpected end of JSON input"
        else apiErrorReply status parsedBody := rfl
    rw [hred]
    split
    · rcases parsedBody with _ | data
      · decide
      · exact apiSuccessReply_trim_ne data
    · unfold apiErrorReply
      apply jsTrim_append_ne_empty
      apply jsTrim_append_ne_empty
      apply jsTrim_append_ne_empty
      decide
  · decide
  · show jsTrim
      ("Sorry, I encountered a network or processing error while contacting the AI. Details: "
        ++ m) ≠ ""
    apply jsTrim_append_ne_empty
    decide

/-- Every early-return string of the api.js composer has a nonblank
trim. -/
theorem composeDeepSeek_error_trim_ne (i m c e : String)
    (h : composeDeepSeekRequest i m c = .error e) : jsTrim e ≠ "" := by
  unfold composeDeepSeekRequest at h
  split at h
  · injection h with he
    subst he
    decide
  · split at h
    · injection h with he
      subst he
      decide
    · cases h

/-- Every string returned by api.js `callDeepSeekAPI` has a nonblank
trim (in particular it is never blank or absent). -/
theorem callDeepSeekAPI_trim_ne (i m c : String) (t : TransportOutcome) :
    jsTrim (callDeepSeekAPI i m c t) ≠ "" := by
  unfold callDeepSeekAPI
  rcases hc : composeDeepSeekRequest i m c with e | req
  · exact composeDeepSeek_error_trim_ne i m c e hc
  · exact handleTransport_trim_ne t

/-- C6: a payload whose text trims to the empty string makes both
adapters return the fixed "Input cannot be empty." user-facing result
without building any outbound request (the composers return an early
`error`, so no HTTP request to the remote endpoint is issued), for every
mode and model id. -/
theorem c6_empty_input_short_circuit (text mode modelId : String)
    (h : jsTrim text = "") :
    composeOpenRouterRequest text mode modelId =
        .error "Input cannot be empty." ∧
    composeDeepSeekRequest text mode modelId =
        .error "Input cannot be empty." ∧
    (∀ t, callOpenRouterAPI text mode modelId t = "Input cannot be empty.") ∧
    (∀ t, callDeepSeekAPI text mode modelId t = "Input cannot be empty.") := by
  have h1 : composeOpenRouterRequest text mode modelId =
      .error "Input cannot be empty." := by
    unfold composeOpenRouterRequest
    rw [if_pos h]
  have h2 : composeDeepSeekRequest text mode modelId =
      .error "Input cannot be empty." := by
    unfold composeDeepSeekRequest
    rw [if_pos h]
  refine ⟨h1, h2, fun t => ?_, fun t => ?_⟩
  · unfold callOpenRouterAPI
    rw [h1]
  · unfold callDeepSeekAPI
    rw [h2]

/-- C6 witness: the theorem applied to the whitespace-only payload. -/
theorem c6_witness :
    jsTrim "   " = "" ∧
    composeOpenRouterRequest "   " "prompt" "m1" =
      .error "Input cannot be empty." :=
  ⟨by decide, (c6_empty_input_short_circuit "   " "prompt" "m1" (by decide)).1⟩

/-- C7: for a nonblank payload and a recognized mode, a model id with the
"google/" prefix yields a user message whose content is a block array with
exactly one text block holding the mode prefix followed by the trimmed
payload, any other model id yields the flat-string content of the same
text, and the system instruction is the same in both variants. -/
theorem c7_content_variant (text mode modelId sys pre : String)
    (hne : jsTrim text ≠ "") (hmode : modeConfig mode = some (sys, pre)) :
    composeOpenRouterRequest text mode modelId =
      .ok ⟨modelId,
        if jsStartsWith "google/" modelId then
          [⟨"system", .blocks [.text sys]⟩,
           ⟨"user", .blocks [.text (pre ++ jsTrim text)]⟩]
        else
          [⟨"system", .flat sys⟩,
           ⟨"user", .flat (pre ++ jsTrim text)⟩]⟩ := by
  have hsys : sys ≠ "" := by
    unfold modeConfig at hmode
    split_ifs at hmode <;> simp only [Option.some.injEq, Prod.mk.injEq] at hmode
    · rw [← hmode.1]
      decide
    · rw [← hmode.1]
      decide
    · rw [← hmode.1]
      decide
  unfold composeOpenRouterRequest
  rw [if_neg hne, hmode]
  cases hg : jsStartsWith "google/" modelId <;>
    simp [hg, buildStandardMessages, buildGoogleMessages, hsys]

/-- C7 witness: the theorem applied to a commit-mode payload and a
google-prefixed model id. -/
theorem c7_witness :
    composeOpenRouterRequest " hi " "commit" "google/g1" =
      .ok ⟨"google/g1",
        [⟨"system", .blocks [.text commitSystem]⟩,
         ⟨"user", .blocks [.text (commitPre ++ "hi")]⟩]⟩ := by
  have h := c7_content_variant " hi " "commit" "google/g1" commitSystem commitPre
    (by decide) rfl
  exact h

/-- C8: every non-2xx response is mapped (not thrown) to a user-facing
string containing the decimal status code and, whenever the error body
parses as JSON with a nested error.message field, also containing that
message text. -/
theorem c8_http_error_mapping (status : Nat) (parsedBody : Option Json)
    (h : okStatus status = false) :
    jsContains (handleTransport (.httpResponse status parsedBody))
        (toString status) ∧
    (∀ m, jsonNestedErrorMessage parsedBody = some m →
      jsContains (handleTransport (.httpResponse status parsedBody)) m) := by
  have hred : handleTransport (.httpResponse status parsedBody) =
      apiErrorReply status parsedBody := by
    have e : handleTransport (.httpResponse status parsedBody) =
        if okStatus status then
          match parsedBody with
          | some data => apiSuccessReply data
          | none =>
            "Sorry, I encountered a network or processing error while contacting the AI. Details: Unexpected end of JSON input"
        else apiErrorReply status parsedBody := rfl
    rw [e, h]
    rfl
  rw [hred]
  unfold apiErrorReply
  rcases hm : jsonNestedErrorMessage parsedBody with _ | m0
  · constructor
    · show (toString status).data <:+: _
      simp only [String.data_append]
      exact ⟨"Sorry, I encountered an API error (".data,
        (")." : String).data ++ ("" : String).data, by simp⟩
    · intro m hmm
      cases hmm
  · constructor
    · show (toString status).data <:+: _
      simp only [String.data_append]
      exact ⟨"Sorry, I encountered an API error (".data,
        (")." : String).data ++ (" Details: " ++ m0).data, by simp⟩
    · intro m hmm
      injection hmm with he
      subst he
      show m0.data <:+: _
      simp only [String.data_append]
      exact ⟨("Sorry, I encountered an API error (".data ++
          (toString status).data ++ (")." : String).data ++
          (" Details: " : String).data), [], by simp⟩

/-- C8 witness: HTTP 429 with body error.message "rate limited" yields a
string containing both "429" and "rate limited". -/
theorem c8_witness :
    okStatus 429 = false ∧
    jsContains (handleTransport (.httpResponse 429 body429)) "429" ∧
    jsContains (handleTransport (.httpResponse 429 body429)) "rate limited" := by
  have h := c8_http_error_mapping 429 body429 (by decide)
  exact ⟨by decide, h.1, h.2 "rate limited" rfl⟩

/-- C9: every completed remote call result is nonblank, so when the
acknowledgment was sent the relay attempts to edit it to exactly that
final text (the blank-substitution in `relayResponse` never fires), and
when the edit fails the fallback sends a brand-new message carrying the
same final text as the attempted edit. -/
theorem c9_relay_edit_fallback (inputText mode currentModelId : String)
    (t : TransportOutcome) (editFails : Bool) :
    callDeepSeekAPI inputText mode currentModelId t ≠ "" ∧
    relayResponse (some (callDeepSeekAPI inputText mode currentModelId t))
        true editFails =
      { editAttempt := some (callDeepSeekAPI inputText mode currentModelId t),
        newMessages :=
          if editFails then [callDeepSeekAPI inputText mode currentModelId t]
          else [] } := by
  have htrim : jsTrim (callDeepSeekAPI inputText mode currentModelId t) ≠ "" :=
    callDeepSeekAPI_trim_ne inputText mode currentModelId t
  have hne : callDeepSeekAPI inputText mode currentModelId t ≠ "" :=
    ne_empty_of_jsTrim_ne _ htrim
  refine ⟨hne, ?_⟩
  unfold relayResponse jsOrStr sendEffect
  simp [hne, htrim]

/-- C9 witness: the theorem applied to a concrete timed-out exchange with
a failing edit. -/
theorem c9_witness :
    relayResponse (some (callDeepSeekAPI "hi" "prompt" "m1" .abortError))
        true true =
      { editAttempt := some (callDeepSeekAPI "hi" "prompt" "m1" .abortError),
        newMessages := [callDeepSeekAPI "hi" "prompt" "m1" .abortError] } :=
  (c9_relay_edit_fallback "hi" "prompt" "m1" .abortError true).2

/-- C2: an unauthorized sender whose message text is not of the start
form (or is absent) triggers no reply, no remote call adapter invocation
and no settings mutation. -/
theorem c2_unauthorized_silent (auth : Int) (s : BotState)
    (m : IncomingMessage)
    (hauth : isAuthorized m.fromId auth = false)
    (hstart : ∀ t, m.text = some t → jsStartsWith "/start" t = false) :
    handleMessage auth s m = ⟨s, [], []⟩ := by
  rcases m with ⟨u, c, mtext⟩
  rcases mtext with _ | t
  · rfl
  · have hst := hstart t rfl
    rcases hsm : setModelArg t with _ | rest <;>
      simp [handleMessage, messageHandlerStep, runStart, runHelp,
        runPromptMode, runCommitMode, runChatMode, runListModels,
        runSetModel, hauth, hst, hsm]

/-- C2 witness: the theorem applied to an unauthorized sender and plain
text. -/
theorem c2_witness :
    isAuthorized 222 111 = false ∧
    handleMessage 111 sampleState ⟨222, 5, some "hello"⟩ =
      ⟨sampleState, [], []⟩ := by
  refine ⟨by decide, c2_unauthorized_silent 111 sampleState ⟨222, 5, some "hello"⟩
    (by decide) ?_⟩
  intro t ht
  injection ht with h0
  subst h0
  decide

/-- When an authorized sender's text matches no command at all, the
general handler processes it as payload and every command handler stays
silent. -/
theorem dispatch_payload (auth : Int) (s : BotState) (u c : Int)
    (t : String)
    (hauth : isAuthorized u auth = true)
    (h0 : (t == "/start") = false)
    (h1 : jsStartsWith "/start" t = false)
    (h2 : (t == "/help") = false)
    (h3 : (t == "/prompt_mode") = false)
    (h4 : (t == "/commit_mode") = false)
    (h5 : (t == "/chat_mode") = false)
    (h6 : (t == "/list_models") = false)
    (h7 : jsStartsWith "/set_model " t = false) :
    handleMessage auth s ⟨u, c, some t⟩ =
      ⟨s, ["Processing in " ++ s.currentMode ++ " mode with " ++
            s.currentModelId ++ "..."],
        [⟨t, s.currentMode, s.currentModelId⟩]⟩ := by
  have h8 : t ∉ exactCommands := by
    simp only [exactCommands, List.mem_cons, List.not_mem_nil, or_false]
    push_neg
    exact ⟨ne_of_beq_false h0, ne_of_beq_false h2, ne_of_beq_false h3,
      ne_of_beq_false h4, ne_of_beq_false h5, ne_of_beq_false h6⟩
  have h9 : setModelArg t = none := by
    unfold setModelArg
    rw [h7]
    rfl
  simp [handleMessage, messageHandlerStep, runStart, runHelp, runPromptMode,
    runCommitMode, runChatMode, runListModels, runSetModel, hauth, h1, h2,
    h3, h4, h5, h6, h7, h8, h9]

/-- C5: a no-argument command token immediately followed by any non-empty
trailing text does not trigger that command's handler; it is processed as
ordinary payload (acknowledgment plus a remote call adapter invocation)
and the settings are unchanged. -/
theorem c5_near_miss_commands (auth : Int) (s : BotState) (u c : Int)
    (tok sfx : String) (htok : tok ∈ noArgCommandTokens) (hsfx : sfx ≠ "")
    (hauth : isAuthorized u auth = true) :
    handleMessage auth s ⟨u, c, some (tok ++ sfx)⟩ =
      ⟨s, ["Processing in " ++ s.currentMode ++ " mode with " ++
            s.currentModelId ++ "..."],
        [⟨tok ++ sfx, s.currentMode, s.currentModelId⟩]⟩ := by
  simp only [noArgCommandTokens, List.mem_cons, List.not_mem_nil,
    or_false] at htok
  rcases htok with rfl | rfl | rfl | rfl | rfl
  · exact dispatch_payload auth s u c _ hauth rfl rfl
      (beq_append_self "/help" sfx hsfx) rfl rfl rfl rfl rfl
  · exact dispatch_payload auth s u c _ hauth rfl rfl rfl
      (beq_append_self "/prompt_mode" sfx hsfx) rfl rfl rfl rfl
  · exact dispatch_payload auth s u c _ hauth rfl rfl rfl rfl
      (beq_append_self "/commit_mode" sfx hsfx) rfl rfl rfl
  · exact dispatch_payload auth s u c _ hauth rfl rfl rfl rfl rfl
      (beq_append_self "/chat_mode" sfx hsfx) rfl rfl
  · exact dispatch_payload auth s u c _ hauth rfl rfl rfl rfl rfl rfl
      (beq_append_self "/list_models" sfx hsfx) rfl

/-- C5 witness: the theorem applied to the near-miss text "/help me". -/
theorem c5_witness :
    handleMessage 111 sampleState ⟨111, 1, some "/help me"⟩ =
      ⟨sampleState, ["Processing in prompt mode with m1..."],
        [⟨"/help me", "prompt", "m1"⟩]⟩ :=
  c5_near_miss_commands 111 sampleState 111 1 "/help" " me" (by decide)
    (by decide) (by decide)

/-- C1 claim check: the code violates the claim.  For the authorized
sender and the text "/start hello" (start token plus trailing content) the
start handler does reply, but the general message handler's exact-command
check does not recognize the text, so it additionally sends the processing
acknowledgment and invokes the remote call adapter — the message does not
short-circuit as the claim and the repository's own README state. -/
theorem c1_start_trailing_text_behavior :
    handleMessage 111 sampleState ⟨111, 1, some "/start hello"⟩ =
      ⟨sampleState,
        ["Processing in prompt mode with m1...", "You are authorized."],
        [⟨"/start hello", "prompt", "m1"⟩]⟩ := by
  decide

/-- The exact-id lookup succeeds exactly for catalog ids. -/
theorem find_id_isSome_iff (models : List ModelEntry) (x : String) :
    (models.find? (fun mm => mm.id == x)).isSome = true ↔
      x ∈ models.map ModelEntry.id := by
  rw [List.find?_isSome]
  constructor
  · rintro ⟨mm, hmm, hbeq⟩
    exact List.mem_map.mpr ⟨mm, hmm, eq_of_beq hbeq⟩
  · intro hmem
    obtain ⟨mm, hmm, hid⟩ := List.mem_map.mp hmem
    exact ⟨mm, hmm, by rw [hid]; simp⟩

/-- Dispatch of a well-formed model-switch command from an authorized
sender: the text matches only the set_model handler, the general handler
short-circuits, and the outcome is the exact-id lookup of the trimmed
argument. -/
theorem dispatch_set_model (auth : Int) (s : BotState) (u c : Int)
    (rest : String)
    (hauth : isAuthorized u auth = true)
    (hne : rest ≠ "")
    (hterm : rest.data.all (fun ch => !jsLineTerminator ch) = true) :
    handleMessage auth s ⟨u, c, some ("/set_model " ++ rest)⟩ =
      match s.availableModels.find? (fun mm => mm.id == jsTrim rest) with
      | some found =>
        ⟨{ s with currentModelId := found.id },
          ["Switched model to: " ++ found.id], []⟩
      | none =>
        ⟨s, ["Error: Model ID \"" ++ jsTrim rest ++
          "\" not found. Use /list_models to see available models."], []⟩ := by
  have hempty : rest.data.isEmpty = false := by
    rcases hr : rest.data with _ | ⟨a, b⟩
    · exact absurd (String.ext hr) hne
    · rfl
  have e7 : jsStartsWith "/set_model " ("/set_model " ++ rest) = true := by
    unfold jsStartsWith
    rw [String.data_append]
    exact List.isPrefixOf_iff_prefix.mpr (List.prefix_append _ _)
  have hsm : setModelArg ("/set_model " ++ rest) = some rest := by
    have hdrop : ("/set_model " ++ rest).data.drop 11 = rest.data := rfl
    have hmk : String.mk rest.data = rest := rfl
    unfold setModelArg
    simp [e7, hdrop, hempty, hterm, hmk]
  have e1 : jsStartsWith "/start" ("/set_model " ++ rest) = false := rfl
  have e2 : ("/set_model " ++ rest == "/help") = false := rfl
  have e3 : ("/set_model " ++ rest == "/prompt_mode") = false := rfl
  have e4 : ("/set_model " ++ rest == "/commit_mode") = false := rfl
  have e5 : ("/set_model " ++ rest == "/chat_mode") = false := rfl
  have e6 : ("/set_model " ++ rest == "/list_models") = false := rfl
  have n2 : "/set_model " ++ rest ≠ "/help" := ne_of_beq_false e2
  have n3 : "/set_model " ++ rest ≠ "/prompt_mode" := ne_of_beq_false e3
  have n4 : "/set_model " ++ rest ≠ "/commit_mode" := ne_of_beq_false e4
  have n5 : "/set_model " ++ rest ≠ "/chat_mode" := ne_of_beq_false e5
  have n6 : "/set_model " ++ rest ≠ "/list_models" := ne_of_beq_false e6
  have hs1 : ∀ x : String, jsTrim ("Switched model to: " ++ x) ≠ "" :=
    fun x => jsTrim_append_ne_empty _ _ (by decide)
  have hs2 : jsTrim ("Error: Model ID \"" ++ jsTrim rest ++
      "\" not found. Use /list_models to see available models.") ≠ "" := by
    have base : jsTrim ("Error: Model ID \"" ++ jsTrim rest) ≠ "" :=
      jsTrim_append_ne_empty _ _ (by decide)
    exact jsTrim_append_ne_empty _ _ base
  rcases hf : s.availableModels.find? (fun mm => mm.id == jsTrim rest)
      with _ | found
  · simp [handleMessage, messageHandlerStep, runStart, runHelp,
      runPromptMode, runCommitMode, runChatMode, runListModels, runSetModel,
      sendEffect, hauth, hsm, e1, e2, e3, e4, e5, e6, e7,
      n2, n3, n4, n5, n6, hf, hs2]
  · simp [handleMessage, messageHandlerStep, runStart, runHelp,
      runPromptMode, runCommitMode, runChatMode, runListModels, runSetModel,
      sendEffect, hauth, hsm, e1, e2, e3, e4, e5, e6, e7,
      n2, n3, n4, n5, n6, hf, hs1]

/-- C4: for a model-switch command from an authorized sender, an argument
that trims to a catalog id updates ActiveModelId to that id with a reply
reporting the new id; an argument matching no catalog id leaves the state
unchanged and replies with the explicit not-found message pointing at the
list command.  In both cases no remote call adapter invocation occurs. -/
theorem c4_set_model_lookup (auth : Int) (s : BotState) (u c : Int)
    (rest : String)
    (hauth : isAuthorized u auth = true)
    (hne : rest ≠ "")
    (hterm : rest.data.all (fun ch => !jsLineTerminator ch) = true) :
    (jsTrim rest ∈ catalogIds s →
      handleMessage auth s ⟨u, c, some ("/set_model " ++ rest)⟩ =
        ⟨{ s with currentModelId := jsTrim rest },
          ["Switched model to: " ++ jsTrim rest], []⟩) ∧
    (jsTrim rest ∉ catalogIds s →
      handleMessage auth s ⟨u, c, some ("/set_model " ++ rest)⟩ =
        ⟨s, ["Error: Model ID \"" ++ jsTrim rest ++
          "\" not found. Use /list_models to see available models."], []⟩) := by
  rw [dispatch_set_model auth s u c rest hauth hne hterm]
  rcases hf : s.availableModels.find? (fun mm => mm.id == jsTrim rest)
      with _ | found
  · simp only [hf]
    refine ⟨fun hmem => ?_, fun _ => trivial⟩
    have hsome : (s.availableModels.find?
        (fun mm => mm.id == jsTrim rest)).isSome = true :=
      (find_id_isSome_iff s.availableModels (jsTrim rest)).mpr hmem
    rw [hf] at hsome
    cases hsome
  · simp only [hf]
    have hbeq := List.find?_some hf
    have hid : found.id = jsTrim rest := eq_of_beq hbeq
    constructor
    · intro _
      rw [hid]
    · intro hnot
      exact absurd ((find_id_isSome_iff s.availableModels (jsTrim rest)).mp
        (by rw [hf]; rfl)) hnot

/-- C4 witness: the theorem applied to the argument " m1 " over the
sample catalog. -/
theorem c4_witness :
    handleMessage 111 sampleState ⟨111, 1, some ("/set_model " ++ " m1 ")⟩ =
      ⟨{ sampleState with currentModelId := jsTrim " m1 " },
        ["Switched model to: " ++ jsTrim " m1 "], []⟩ :=
  (c4_set_model_lookup 111 sampleState 111 1 " m1 " (by decide) (by decide)
    (by decide)).1 (by decide)

/-- C10 counterexample: for the authorized sender, the text consisting of
the model-switch token, one space and a newline (whitespace) is not
matched by the set_model pattern (JS `.` does not match a newline), so no
handler replies at all: the claimed model-not-found reply is not sent. -/
theorem c10_counterexample_newline :
    handleMessage 111 sampleState ⟨111, 1, some "/set_model \n"⟩ =
      ⟨sampleState, [], []⟩ := by
  decide

/-- C10 (amended): for an authorized sender, "/set_model " followed by
whitespace that contains no line terminator is classified as a
model-switch command: it never reaches the request composer, the trimmed
argument is the empty string, ActiveModelId is unchanged (no catalog entry
has an empty id) and the reply is the model-not-found message.  (When the
trailing whitespace contains a line terminator the text still
short-circuits away from the composer unchanged, but no reply at all is
sent, as the counterexample shows.) -/
theorem c10_whitespace_arg_not_found (auth : Int) (s : BotState)
    (u c : Int) (ws : String)
    (hauth : isAuthorized u auth = true)
    (hne : ws ≠ "")
    (hws : ws.data.all
      (fun ch => ch.isWhitespace && !jsLineTerminator ch) = true)
    (hid : "" ∉ catalogIds s) :
    handleMessage auth s ⟨u, c, some ("/set_model " ++ ws)⟩ =
      ⟨s, ["Error: Model ID \"\" not found. Use /list_models to see available models."],
        []⟩ := by
  have hterm : ws.data.all (fun ch => !jsLineTerminator ch) = true := by
    rw [List.all_eq_true] at hws ⊢
    intro x hx
    have hx2 := hws x hx
    simp only [Bool.and_eq_true] at hx2
    exact hx2.2
  have htrim : jsTrim ws = "" := by
    rw [jsTrim_eq_empty_iff]
    intro cc hcc
    have hc2 := List.all_eq_true.mp hws cc hcc
    simp only [Bool.and_eq_true] at hc2
    exact hc2.1
  rw [dispatch_set_model auth s u c ws hauth hne hterm, htrim]
  have hf : s.availableModels.find? (fun mm => mm.id == "") = none := by
    rcases hq : s.availableModels.find? (fun mm => mm.id == "") with _ | found
    · exact hq
    · exact absurd ((find_id_isSome_iff s.availableModels "").mp
        (by rw [hq]; rfl)) hid
  simp only [hf]
  rfl

/-- C10 witness: the amended theorem applied to a single trailing space
over the sample catalog. -/
theorem c10_witness :
    handleMessage 111 sampleState ⟨111, 1, some ("/set_model " ++ " ")⟩ =
      ⟨sampleState,
        ["Error: Model ID \"\" not found. Use /list_models to see available models."],
        []⟩ :=
  c10_whitespace_arg_not_found 111 sampleState 111 1 " " (by decide)
    (by decide) (by decide) (by decide)

/-- The start handler never mutates the settings. -/
theorem runStart_fst (a : Int) (s : BotState) (u : Int) (t : String) :
    (runStart a s u t).1 = s := by
  unfold runStart
  split_ifs <;> rfl

/-- The help handler never mutates the settings. -/
theorem runHelp_fst (a : Int) (s : BotState) (u : Int) (t : String) :
    (runHelp a s u t).1 = s := by
  unfold runHelp
  split_ifs <;> rfl

/-- The list handler never mutates the settings. -/
theorem runListModels_fst (a : Int) (s : BotState) (u : Int) (t : String) :
    (runListModels a s u t).1 = s := by
  unfold runListModels
  split_ifs <;> rfl

/-- The prompt-mode handler touches neither model id nor catalog. -/
theorem runPromptMode_fields (a : Int) (s : BotState) (u : Int) (t : String) :
    (runPromptMode a s u t).1.currentModelId = s.currentModelId ∧
    (runPromptMode a s u t).1.availableModels = s.availableModels := by
  unfold runPromptMode
  split_ifs <;> exact ⟨rfl, rfl⟩

/-- The commit-mode handler touches neither model id nor catalog. -/
theorem runCommitMode_fields (a : Int) (s : BotState) (u : Int) (t : String) :
    (runCommitMode a s u t).1.currentModelId = s.currentModelId ∧
    (runCommitMode a s u t).1.availableModels = s.availableModels := by
  unfold runCommitMode
  split_ifs <;> exact ⟨rfl, rfl⟩

/-- The chat-mode handler touches neither model id nor catalog. -/
theorem runChatMode_fields (a : Int) (s : BotState) (u : Int) (t : String) :
    (runChatMode a s u t).1.currentModelId = s.currentModelId ∧
    (runChatMode a s u t).1.availableModels = s.availableModels := by
  unfold runChatMode
  split_ifs <;> exact ⟨rfl, rfl⟩

/-- The set_model handler either leaves the settings unchanged or, on a
matching command from an authorized sender and a successful exact-id
lookup, updates only the current model id to the found entry's id. -/
theorem runSetModel_fst (a : Int) (s : BotState) (u : Int) (t : String) :
    (runSetModel a s u t).1 = s ∨
    ∃ rest found,
      setModelArg t = some rest ∧ isAuthorized u a = true ∧
      s.availableModels.find? (fun mm => mm.id == jsTrim rest) = some found ∧
      (runSetModel a s u t).1 = { s with currentModelId := found.id } := by
  rcases hsm : setModelArg t with _ | rest
  · left
    simp only [runSetModel, hsm]
  · rcases ha : isAuthorized u a
    · left
      simp only [runSetModel, hsm, ha]
      rfl
    · rcases hfind : s.availableModels.find? (fun mm => mm.id == jsTrim rest)
          with _ | found
      · left
        simp only [runSetModel, hsm, ha, hfind]
        rfl
      · right
        refine ⟨rest, found, rfl, rfl, hfind, ?_⟩
        simp only [runSetModel, hsm, ha, hfind]
        rfl

/-- Characterization of one dispatch step at the level of the settings:
the catalog never changes, and the current model id either stays put or is
set by a successful model-switch command to its trimmed argument, which is
a catalog id. -/
theorem handleMessage_state_characterization (auth : Int) (s : BotState)
    (m : IncomingMessage) :
    (handleMessage auth s m).state.availableModels = s.availableModels ∧
    ((handleMessage auth s m).state.currentModelId = s.currentModelId ∨
      ∃ t rest, m.text = some t ∧ setModelArg t = some rest ∧
        isAuthorized m.fromId auth = true ∧
        jsTrim rest ∈ catalogIds s ∧
        (handleMessage auth s m).state.currentModelId = jsTrim rest) := by
  rcases m with ⟨u, c, mtext⟩
  rcases mtext with _ | t
  · exact ⟨rfl, Or.inl rfl⟩
  · have hstate : (handleMessage auth s ⟨u, c, some t⟩).state =
        (runSetModel auth
          (runListModels auth
            (runChatMode auth
              (runCommitMode auth
                (runPromptMode auth
                  (runHelp auth (runStart auth s u t).1 u t).1 u t).1
                u t).1 u t).1 u t).1 u t).1 := rfl
    rw [hstate, runStart_fst, runHelp_fst]
    have hp := runPromptMode_fields auth s u t
    have hc := runCommitMode_fields auth (runPromptMode auth s u t).1 u t
    have hch := runChatMode_fields auth
      (runCommitMode auth (runPromptMode auth s u t).1 u t).1 u t
    rw [runListModels_fst]
    have hE1 : (runChatMode auth
        (runCommitMode auth (runPromptMode auth s u t).1 u t).1 u
          t).1.currentModelId = s.currentModelId :=
      (hch.1.trans hc.1).trans hp.1
    have hE2 : (runChatMode auth
        (runCommitMode auth (runPromptMode auth s u t).1 u t).1 u
          t).1.availableModels = s.availableModels :=
      (hch.2.trans hc.2).trans hp.2
    rcases runSetModel_fst auth
        (runChatMode auth
          (runCommitMode auth (runPromptMode auth s u t).1 u t).1 u t).1
        u t with hid | ⟨rest, found, hsm, hau, hfind, hset⟩
    · rw [hid]
      exact ⟨hE2, Or.inl hE1⟩
    · rw [hset]
      rw [hE2] at hfind
      have hbeq := List.find?_some hfind
      have hfid : found.id = jsTrim rest := eq_of_beq hbeq
      have hfmem : found ∈ s.availableModels := List.mem_of_find?_eq_some hfind
      refine ⟨hE2, Or.inr ⟨t, rest, rfl, hsm, hau, ?_, ?_⟩⟩
      · rw [← hfid]
        exact List.mem_map.mpr ⟨found, hfmem, rfl⟩
      · exact hfid

/-- Characterization of the startup value of the current model id: it is
the configured default when the default is a catalog id, else the first
catalog entry's id. -/
theorem initState_characterization (d : String) (load : ModelsLoad)
    (s0 : BotState) (h : initState d load = some s0) :
    (d ∈ catalogIds s0 ∧ s0.currentModelId = d) ∨
    (d ∉ catalogIds s0 ∧ ∃ first rest,
      s0.availableModels = first :: rest ∧ s0.currentModelId = first.id) := by
  rcases load with _ | _ | models
  · injection h with h0
    subst h0
    left
    refine ⟨?_, rfl⟩
    show d ∈ List.map ModelEntry.id (defaultCatalog d)
    simp [defaultCatalog]
  · injection h with h0
    subst h0
    left
    refine ⟨?_, rfl⟩
    show d ∈ List.map ModelEntry.id (defaultCatalog d)
    simp [defaultCatalog]
  · rcases hany : models.any (fun m => m.id == d)
    · rcases models with _ | ⟨first, rest⟩
      · have e : initState d (.loaded []) = none := rfl
        rw [e] at h
        cases h
      · have e : initState d (.loaded (first :: rest)) =
            some ⟨"prompt", first.id, first :: rest⟩ := by
          have estep : initState d (.loaded (first :: rest)) =
              if ((first :: rest).any fun m => m.id == d) = true then
                some ⟨"prompt", d, first :: rest⟩
              else some ⟨"prompt", first.id, first :: rest⟩ := rfl
          rw [estep, if_neg (by simp [hany])]
        rw [e] at h
        injection h with h0
        subst h0
        right
        refine ⟨?_, first, rest, rfl, rfl⟩
        intro hmem
        obtain ⟨mm, hmm, hmmid⟩ := List.mem_map.mp hmem
        have hcontra : (first :: rest).any (fun m => m.id == d) = true :=
          List.any_eq_true.mpr ⟨mm, hmm, by rw [hmmid]; simp⟩
        rw [hany] at hcontra
        cases hcontra
    · have e : initState d (.loaded models) = some ⟨"prompt", d, models⟩ := by
        have estep : initState d (.loaded models) =
            if (models.any fun m => m.id == d) = true then
              some ⟨"prompt", d, models⟩
            else
              match models with
              | [] => none
              | first :: _ => some ⟨"prompt", first.id, models⟩ := rfl
        rw [estep, if_pos hany]
      rw [e] at h
      injection h with h0
      subst h0
      left
      obtain ⟨mm, hmm, hbeq⟩ := List.any_eq_true.mp hany
      refine ⟨?_, rfl⟩
      show d ∈ List.map ModelEntry.id models
      exact List.mem_map.mpr ⟨mm, hmm, eq_of_beq hbeq⟩

/-- The model-id invariant holds in every reachable state. -/
theorem reachable_model_invariant (auth : Int) (s : BotState)
    (h : Reachable auth s) : s.currentModelId ∈ catalogIds s := by
  induction h with
  | init d load s0 hinit =>
    rcases initState_characterization d load s0 hinit with
        ⟨hmem, hcur⟩ | ⟨_, first, rest, hmodels, hcur⟩
    · rw [hcur]
      exact hmem
    · rw [hcur]
      show _ ∈ List.map ModelEntry.id s0.availableModels
      rw [hmodels]
      exact List.mem_map.mpr ⟨first, List.mem_cons_self _ _, rfl⟩
  | step s0 m _ ih =>
    obtain ⟨hmodels, hor⟩ := handleMessage_state_characterization auth s0 m
    show _ ∈ List.map ModelEntry.id _
    rw [hmodels]
    rcases hor with heq | ⟨_, _, _, _, _, hmem, hcur⟩
    · rw [heq]
      exact ih
    · rw [hcur]
      exact hmem

/-- C3: in every reachable state the active model id is the id of some
catalog entry; at startup it is the configured default id when that id is
in the catalog and otherwise the first catalog entry's id; and a dispatch
step changes it only through a model-switch command from an authorized
sender whose trimmed argument is a catalog id, to exactly that argument. -/
theorem c3_active_model_id_invariant (auth : Int) (s : BotState)
    (h : Reachable auth s) :
    s.currentModelId ∈ catalogIds s ∧
    (∀ d load s0, initState d load = some s0 →
      (d ∈ catalogIds s0 ∧ s0.currentModelId = d) ∨
      (d ∉ catalogIds s0 ∧ ∃ first rest,
        s0.availableModels = first :: rest ∧
        s0.currentModelId = first.id)) ∧
    (∀ m, (handleMessage auth s m).state.currentModelId ≠ s.currentModelId →
      ∃ t rest, m.text = some t ∧ setModelArg t = some rest ∧
        isAuthorized m.fromId auth = true ∧
        jsTrim rest ∈ catalogIds s ∧
        (handleMessage auth s m).state.currentModelId = jsTrim rest) := by
  refine ⟨reachable_model_invariant auth s h,
    fun d load s0 h0 => initState_characterization d load s0 h0,
    fun m hne => ?_⟩
  rcases (handleMessage_state_characterization auth s m).2 with heq | hex
  · exact absurd heq hne
  · exact hex

/-- C3 witness: the theorem applied to the sample state, reachable by
initializing with default id "m1" over the sample catalog. -/
theorem c3_witness :
    sampleState.currentModelId ∈ catalogIds sampleState :=
  (c3_active_model_id_invariant 111 sampleState
    (Reachable.init "m1" (.loaded sampleCatalog) sampleState (by rfl))).1

end Chatbot
